import Mathlib

/-!
# TCPNetworkLinux: staging buffers and connection life cycle

A shallow embedding of `TCPNetworkLinux.cpp` (classes `TCPServer` and
`TCPClient`).  The object's fields become a record, every method becomes a
function from the record (and the outcomes of the system calls it issues) to
the returned value, the new record and the list of system calls issued.
-/

namespace TCPNetworkLinux

/-! ## Machine integers -/

/-- Conversion of an integer to `int64_t` (two's complement wrap-around). -/
def wrapInt64 (z : Int) : Int := (z + 2 ^ 63) % 2 ^ 64 - 2 ^ 63

/-- Conversion of an integer to `int` / `int32_t` (two's complement wrap-around). -/
def wrapInt32 (z : Int) : Int := (z + 2 ^ 31) % 2 ^ 32 - 2 ^ 31

/-- Conversion of an integer to `size_t` (reduction modulo `2 ^ 64`). -/
def wrapSize (z : Int) : Nat := (z % 2 ^ 64).toNat

/-! ## System calls and their outcomes -/

/-- Values of `errno` the library tells apart; every other value is `other`. -/
inductive Errno where
  | EWOULDBLOCK
  | EAGAIN
  | ECONNRESET
  | EPIPE
  | EINPROGRESS
  | other (code : Nat)
  deriving DecidableEq

/-- The system calls the server issues, with the descriptor they are issued on. -/
inductive Syscall where
  | socket
  | setsockopt (fd : Int)
  | fcntlGetfl (fd : Int)
  | fcntlSetfl (fd : Int)
  | inetPton (ip : String)
  | bind (fd : Int) (port : Int)
  | listen (fd : Int) (backlog : Int)
  | accept (fd : Int)
  | close (fd : Int)
  | poll (fd : Int)
  | send (fd : Int) (size : Nat)
  | recv (fd : Int) (size : Nat)
  | recvPeek (fd : Int)
  | ioctlFionread (fd : Int)
  deriving DecidableEq

/-- One issued system call, with the two descriptor fields as they were when
the call was issued. -/
structure Event where
  call : Syscall
  listener : Int
  peer : Int
  deriving DecidableEq

/-- Outcomes of the system calls of one method call.  Every method issues each
kind of call at most once, `close` apart, whose result the code ignores. -/
structure Env where
  /-- Result of `socket(AF_INET, SOCK_STREAM, 0)`. -/
  socketRet : Int
  /-- Result of `setsockopt`. -/
  setsockoptRet : Int
  /-- Result of `fcntl(fd, F_GETFL, 0)`. -/
  fcntlGetflRet : Int
  /-- Result of `fcntl(fd, F_SETFL, flags | O_NONBLOCK)`. -/
  fcntlSetflRet : Int
  /-- Result of `inet_pton`. -/
  inetPtonRet : Int
  /-- Result of `bind`. -/
  bindRet : Int
  /-- Result of `listen`. -/
  listenRet : Int
  /-- Result of `accept`. -/
  acceptRet : Int
  /-- Value of `errno` after `accept`. -/
  acceptErrno : Errno
  /-- Result of `poll`. -/
  pollRet : Int
  /-- Whether `pfd.revents & POLLHUP` is non-zero after `poll`. -/
  reventsPOLLHUP : Bool
  /-- Whether `pfd.revents & POLLOUT` is non-zero after `poll`. -/
  reventsPOLLOUT : Bool
  /-- Result of `send` (an `ssize_t`). -/
  sendRet : Int
  /-- Value of `errno` after `send`. -/
  sendErrno : Errno
  /-- Result of `recv(..., 0)` (an `ssize_t`). -/
  recvRet : Int
  /-- Value of `errno` after `recv(..., 0)`. -/
  recvErrno : Errno
  /-- Result of `recv(..., MSG_PEEK)` (an `ssize_t`). -/
  peekRet : Int
  /-- Value of `errno` after `recv(..., MSG_PEEK)`. -/
  peekErrno : Errno
  /-- Result of `ioctl(fd, FIONREAD, &bytesAvailable)`. -/
  ioctlRet : Int
  /-- Value `ioctl` stores in `bytesAvailable`. -/
  ioctlBytes : Int

/-! ## The server object -/

/-- Fields of `class TCPServer`. -/
structure TCPServer where
  _port : Int
  _ip : String
  errorMessage : String
  _txBuffer : List Char
  _rxBuffer : List Char
  _txBufferSize : Nat
  _rxBufferSize : Nat
  _serverSocket : Int
  _clientSocket : Int
  deriving DecidableEq

/-- Result of a method call: the returned value, the object afterwards and the
system calls issued, in order. -/
structure Run (α : Type) where
  ret : α
  st : TCPServer
  calls : List Event

/-- The event of issuing `c` in state `s`. -/
def TCPServer.emit (s : TCPServer) (c : Syscall) : Event :=
  ⟨c, s._serverSocket, s._clientSocket⟩

/-! ## Staging buffers -/

/-- Method `TCPServer::removeFrontRxBuffer`: at most `num` times, stop if the buffer
is empty, else `pop_front`. -/
def removeFrontRxBuffer (s : TCPServer) : Nat → TCPServer
  | 0 => s
  | num + 1 =>
    match s._rxBuffer with
    | [] => s
    | _ :: rest => removeFrontRxBuffer { s with _rxBuffer := rest } num

/-- Method `TCPServer::removeFrontTxBuffer`. -/
def removeFrontTxBuffer (s : TCPServer) : Nat → TCPServer
  | 0 => s
  | size + 1 =>
    match s._txBuffer with
    | [] => s
    | _ :: rest => removeFrontTxBuffer { s with _txBuffer := rest } size

/-- Method `TCPServer::removeAllRxBuffer`. -/
def removeAllRxBuffer (s : TCPServer) : TCPServer := { s with _rxBuffer := [] }

/-- Method `TCPServer::removeAllTxBuffer`. -/
def removeAllTxBuffer (s : TCPServer) : TCPServer := { s with _txBuffer := [] }

/-- Loop of `TCPServer::popFrontRxBuffer`; `data` is the string built so far. -/
def popFrontRxBufferLoop (s : TCPServer) (data : List Char) : Nat → List Char × TCPServer
  | 0 => (data, s)
  | size + 1 =>
    match s._rxBuffer with
    | [] => (data, s)
    | c :: rest => popFrontRxBufferLoop { s with _rxBuffer := rest } (data ++ [c]) size

/-- Method `TCPServer::popFrontRxBuffer`: the returned string and the object afterwards. -/
def popFrontRxBuffer (s : TCPServer) (size : Nat) : List Char × TCPServer :=
  popFrontRxBufferLoop s [] size

/-- Method `TCPServer::popAllRxBuffer`. -/
def popAllRxBuffer (s : TCPServer) : List Char × TCPServer :=
  (s._rxBuffer, { s with _rxBuffer := [] })

/-- Method `TCPServer::pushBackRxBuffer(const char*, size_t)`, `size` being the length
of `data`.  `emptySize` is computed in `int64_t` from `size_t` operands and is
converted back to `size_t` for `removeFrontRxBuffer`. -/
def pushBackRxBuffer (s : TCPServer) (data : List Char) : TCPServer :=
  let size : Nat := data.length
  let emptySize : Int :=
    wrapInt64 (wrapInt64 (wrapSize (s._rxBuffer.length + size)) - wrapInt64 s._rxBufferSize)
  let s1 := if emptySize > 0 then removeFrontRxBuffer s (wrapSize emptySize) else s
  { s1 with _rxBuffer := s1._rxBuffer ++ data }

/-- Method `TCPServer::pushBackTxBuffer(const char*, size_t)`. -/
def pushBackTxBuffer (s : TCPServer) (data : List Char) : TCPServer :=
  let size : Nat := data.length
  let emptySize : Int :=
    wrapInt64 (wrapInt64 (wrapSize (s._txBuffer.length + size)) - wrapInt64 s._txBufferSize)
  let s1 := if emptySize > 0 then removeFrontTxBuffer s (wrapSize emptySize) else s
  { s1 with _txBuffer := s1._txBuffer ++ data }

/-- Method `TCPServer::setRxBufferSize`. -/
def setRxBufferSize (s : TCPServer) (size : Nat) : TCPServer := { s with _rxBufferSize := size }

/-- Method `TCPServer::setTxBufferSize`. -/
def setTxBufferSize (s : TCPServer) (size : Nat) : TCPServer := { s with _txBufferSize := size }

/-- Method `TCPServer::TCPServer()`: both capacities 1000, both descriptors absent;
the strings and buffers are default-constructed (empty); `_port` is left
uninitialised by the constructor and is taken as a parameter. -/
def TCPServer.new (port : Int) : TCPServer :=
  { _port := port, _ip := "", errorMessage := "", _txBuffer := [], _rxBuffer := [],
    _txBufferSize := 1000, _rxBufferSize := 1000, _serverSocket := -1, _clientSocket := -1 }

/-- Successive `pushBackRxBuffer` calls, one per element of `pushes`. -/
def pushAllRx (s : TCPServer) (pushes : List (List Char)) : TCPServer :=
  pushes.foldl pushBackRxBuffer s

/-- Method `TCPServer::_handleClientDisconnection`: `close(_clientSocket)`, then the
peer descriptor becomes absent. -/
def _handleClientDisconnection (s : TCPServer) : Run Unit :=
  ⟨(), { s with _clientSocket := -1 }, [s.emit (.close s._clientSocket)]⟩

/-- Method `TCPServer::_handleServerDisconnection`: tear down the peer, then
`close(_serverSocket)` and the listener descriptor becomes absent. -/
def _handleServerDisconnection (s : TCPServer) : Run Unit :=
  let r := _handleClientDisconnection s
  ⟨(), { r.st with _serverSocket := -1 }, r.calls ++ [r.st.emit (.close r.st._serverSocket)]⟩

/-- Method `TCPServer::serverClose`. -/
def serverClose (s : TCPServer) : Run Unit := _handleServerDisconnection s

/-- Method `TCPServer::clientClose`. -/
def clientClose (s : TCPServer) : Run Unit := _handleClientDisconnection s

/-- Failure exit of `startByIP` after the socket exists: record `msg`, call
`_handleServerDisconnection`, return false.  `pre` holds the calls issued so far. -/
def startFail (s : TCPServer) (msg : String) (pre : List Event) : Run Bool :=
  let r := _handleServerDisconnection { s with errorMessage := msg }
  ⟨false, r.st, pre ++ r.calls⟩

/-- Method `TCPServer::startByIP`. -/
def startByIP (s : TCPServer) (env : Env) (port : Nat) (ip : String) : Run Bool :=
  let s0 := { s with _port := (port : Int), _ip := ip }
  let t0 := [s0.emit .socket]
  let s1 := { s0 with _serverSocket := env.socketRet }
  if s1._serverSocket = -1 then
    ⟨false, { s1 with errorMessage := "TCPServer error: Error creating server socket: " }, t0⟩
  else
    let t1 := t0 ++ [s1.emit (.setsockopt s1._serverSocket)]
    if env.setsockoptRet = -1 then
      startFail s1 "TCPServer error: Error setting socket options." t1
    else
      let t2 := t1 ++ [s1.emit (.fcntlGetfl s1._serverSocket)]
      let flags := env.fcntlGetflRet
      if flags = -1 then
        startFail s1
          "TCPServer error: Error getting socket flags for setting socket to non-blockings." t2
      else
        let t3 := t2 ++ [s1.emit (.fcntlSetfl s1._serverSocket)]
        if env.fcntlSetflRet = -1 then
          startFail s1 "TCPServer error: Error setting socket to non-blocking." t3
        else
          let t4 := t3 ++ [s1.emit (.inetPton ip)]
          if env.inetPtonRet ≤ 0 then
            startFail s1 "TCPServer error: Invalid IP address/ Address not supported" t4
          else
            let t5 := t4 ++ [s1.emit (.bind s1._serverSocket port)]
            if env.bindRet = -1 then
              startFail s1 "TCPServer error: Bind failed." t5
            else
              let MAX_CONNECTIONS : Int := 10
              let t6 := t5 ++ [s1.emit (.listen s1._serverSocket MAX_CONNECTIONS)]
              if env.listenRet = -1 then
                startFail s1 "TCPServer error: Listen failed." t6
              else
                ⟨true, s1, t6⟩

/-- Method `TCPServer::_clientConfig`: one `accept`, whose result is stored in
`_clientSocket`. -/
def _clientConfig (s : TCPServer) (env : Env) : Run Bool :=
  let t := [s.emit (.accept s._serverSocket)]
  let s1 := { s with _clientSocket := env.acceptRet }
  if s1._clientSocket = -1 then
    if env.acceptErrno = .EWOULDBLOCK ∨ env.acceptErrno = .EAGAIN then
      ⟨false, s1, t⟩
    else
      ⟨false, { s1 with errorMessage := "TCPServer error: Accept client failed" }, t⟩
  else
    ⟨true, s1, t⟩

/-- The block shared by `write` and `clientConnect`: `_clientConfig`, and on
success the two `fcntl` calls that make the peer non-blocking.  The value is
`none` when the caller falls through to its final `return true`, and
`some false` when the block returns false. -/
def acceptPeer (s : TCPServer) (env : Env) : Run (Option Bool) :=
  let r := _clientConfig s env
  if r.ret then
    let s1 := r.st
    let t1 := r.calls ++ [s1.emit (.fcntlGetfl s1._clientSocket)]
    let clientFlags := env.fcntlGetflRet
    if clientFlags = -1 then
      let d := _handleClientDisconnection
        { s1 with errorMessage := "TCPServer error: Error getting client socket flags." }
      ⟨some false, d.st, t1 ++ d.calls⟩
    else
      let t2 := t1 ++ [s1.emit (.fcntlSetfl s1._clientSocket)]
      if env.fcntlSetflRet = -1 then
        let d := _handleClientDisconnection
          { s1 with errorMessage := "TCPServer error: Error setting client socket to non-blocking." }
        ⟨some false, d.st, t2 ++ d.calls⟩
      else
        ⟨none, s1, t2⟩
  else
    ⟨none, r.st, r.calls⟩

/-- Method `TCPServer::isListening`. -/
def isListening (s : TCPServer) : Bool :=
  if s._serverSocket = -1 then false else true

/-- Method `TCPServer::isClientConnected`. -/
def isClientConnected (s : TCPServer) (env : Env) : Run Bool :=
  if s._clientSocket = -1 then
    ⟨false, s, []⟩
  else
    let t := [s.emit (.recvPeek s._clientSocket)]
    let recvRes := env.peekRet
    if recvRes = 0 then
      let d := _handleClientDisconnection { s with errorMessage := "Client disconnected." }
      ⟨false, d.st, t ++ d.calls⟩
    else if recvRes < 0 then
      if env.peekErrno = .ECONNRESET ∨ env.peekErrno = .EPIPE then
        let d := _handleClientDisconnection
          { s with errorMessage := "TCPServer error: Connection reset by peer." }
        ⟨false, d.st, t ++ d.calls⟩
      else
        ⟨true, s, t⟩
    else
      ⟨true, s, t⟩

/-- Method `TCPServer::clientConnect`. -/
def clientConnect (s : TCPServer) (env : Env) : Run Bool :=
  let c := isClientConnected s env
  if !c.ret then
    let a := acceptPeer c.st env
    match a.ret with
    | some b => ⟨b, a.st, c.calls ++ a.calls⟩
    | none => ⟨true, a.st, c.calls ++ a.calls⟩
  else
    ⟨true, c.st, c.calls⟩

/-- Method `TCPServer::available`. -/
def available (s : TCPServer) (env : Env) : Run Int :=
  let bytesAvailable : Int := 0
  if s._serverSocket > 0 ∧ s._clientSocket > 0 then
    let t := [s.emit (.ioctlFionread s._clientSocket)]
    if env.ioctlRet < 0 then
      ⟨-1, { s with errorMessage := "ioctl failed" }, t⟩
    else
      ⟨wrapInt32 env.ioctlBytes, s, t⟩
  else
    ⟨bytesAvailable, s, []⟩

/-- The end of `TCPServer::read(char*, const size_t&)`, after the
`bytesRead <= 0` block: the check of `bytesRead` against `rxSize`. -/
def readCheckSize (s : TCPServer) (rxSize : Nat) (bytesRead : Int) (t : List Event) : Run Int :=
  if bytesRead > wrapInt64 rxSize then
    ⟨0, { s with errorMessage :=
        "TCPServer error: Error receiving message. bytesRead is more than rxSize" }, t⟩
  else
    ⟨bytesRead, s, t⟩

/-- Method `TCPServer::read(char*, const size_t&)`: the returned `int32_t`. -/
def read (s : TCPServer) (env : Env) (rxSize : Nat) : Run Int :=
  if rxSize = 0 then
    ⟨-1, { s with errorMessage := "TCPServer error: rxSize is zero value." }, []⟩
  else
    let t := [s.emit (.recv s._clientSocket rxSize)]
    let bytesRead : Int := wrapInt32 env.recvRet
    if bytesRead ≤ 0 then
      if bytesRead = 0 then
        readCheckSize s rxSize bytesRead t
      else if bytesRead = -1 then
        if env.recvErrno ≠ .EWOULDBLOCK ∧ env.recvErrno ≠ .EAGAIN then
          let d := _handleClientDisconnection
            { s with errorMessage := "TCPServer error: Error receiving message." }
          ⟨-1, d.st, t ++ d.calls⟩
        else
          ⟨-1, s, t⟩
      else
        readCheckSize s rxSize bytesRead t
    else
      readCheckSize s rxSize bytesRead t

/-- Method `TCPServer::write(const char&, const size_t&)`. -/
def write (s : TCPServer) (env : Env) (txSize : Nat) : Run Bool :=
  if s._clientSocket = -1 then
    let a := acceptPeer s env
    match a.ret with
    | some b => ⟨b, a.st, a.calls⟩
    | none => ⟨true, a.st, a.calls⟩
  else
    let t0 := [s.emit (.poll s._clientSocket)]
    let pollRes := env.pollRet
    if pollRes = -1 then
      let d := _handleClientDisconnection { s with errorMessage := "TCPServer error: Poll error." }
      ⟨false, d.st, t0 ++ d.calls⟩
    else if env.reventsPOLLHUP then
      let d := _handleClientDisconnection
        { s with errorMessage := "TCPServer error: Client disconnected." }
      ⟨false, d.st, t0 ++ d.calls⟩
    else if env.reventsPOLLOUT then
      let t1 := t0 ++ [s.emit (.send s._clientSocket txSize)]
      let bytesWrite : Int := wrapInt32 env.sendRet
      if bytesWrite = -1 then
        if env.sendErrno ≠ .EWOULDBLOCK ∧ env.sendErrno ≠ .EAGAIN then
          let d := _handleClientDisconnection
            { s with errorMessage := "TCPServer error: Error sending message." }
          ⟨false, d.st, t1 ++ d.calls⟩
        else
          ⟨true, s, t1⟩
      else if bytesWrite < wrapInt32 txSize then
        ⟨false, { s with errorMessage :=
            "TCPServer error: Partial write. Not all data was sent." }, t1⟩
      else
        ⟨true, s, t1⟩
    else
      ⟨true, s, t0⟩

/-- Method `TCPServer::write(const std::string&)`. -/
def writeString (s : TCPServer) (env : Env) (txBuffer : List Char) : Run Bool :=
  write s env txBuffer.length

/-- Method `TCPServer::write(void)`: send the staged bytes, clear `_txBuffer` when the
send is reported successful. -/
def writeStaged (s : TCPServer) (env : Env) : Run Bool :=
  let data := s._txBuffer
  let w := writeString s env data
  if !w.ret then
    ⟨false, w.st, w.calls⟩
  else
    ⟨true, { w.st with _txBuffer := [] }, w.calls⟩

/-! ## The client object -/

/-- Fields of `class TCPClient`. -/
structure TCPClient where
  bytesRead : Int
  bytesSent : Int
  clientSocket : Int
  _port : Int
  _ip : String
  errorMessage : String
  deriving DecidableEq

/-- Result of a client method call: the returned value, the object afterwards
and the system calls issued, in order. -/
structure ClientRun (α : Type) where
  ret : α
  st : TCPClient
  calls : List Syscall

/-- Method `TCPClient::handleClientDisconnection`: `close(clientSocket)`, then
the descriptor becomes absent. -/
def TCPClient.handleClientDisconnection (c : TCPClient) : ClientRun Unit :=
  ⟨(), { c with clientSocket := -1 }, [.close c.clientSocket]⟩

/-- Method `TCPClient::clientClose`. -/
def TCPClient.clientClose (c : TCPClient) : ClientRun Unit := c.handleClientDisconnection

/-- Method `TCPClient::isClientConnected`. -/
def TCPClient.isClientConnected (c : TCPClient) : Bool :=
  if c.clientSocket = -1 then false else true

/-- Second block of `TCPClient::update`: the receive, and the final
`return true`.  A pointer argument is `none` when it is null; `pre` holds the
calls issued so far. -/
def TCPClient.updateRecv (c : TCPClient) (env : Env) (rxBuffer : Option (List Char))
    (rxSize : Int) (pre : List Syscall) : ClientRun Bool :=
  if rxBuffer.isSome ∧ rxSize > 0 then
    let t := pre ++ [.recv c.clientSocket (wrapSize rxSize)]
    let c1 := { c with bytesRead := env.recvRet }
    if c1.bytesRead = -1 then
      if env.recvErrno ≠ .EAGAIN ∧ env.recvErrno ≠ .EWOULDBLOCK then
        let d := TCPClient.handleClientDisconnection { c1 with errorMessage := "Receive failed." }
        ⟨false, d.st, t ++ d.calls⟩
      else
        ⟨true, c1, t⟩
    else if c1.bytesRead = 0 then
      let d := TCPClient.handleClientDisconnection
        { c1 with errorMessage := "Server disconnected." }
      ⟨false, d.st, t ++ d.calls⟩
    else
      ⟨true, c1, t⟩
  else
    ⟨true, c, pre⟩

/-- Method `TCPClient::update`: the send block, then the receive block. -/
def TCPClient.update (c : TCPClient) (env : Env) (txBuffer : Option (List Char)) (txSize : Int)
    (rxBuffer : Option (List Char)) (rxSize : Int) : ClientRun Bool :=
  if txBuffer.isSome ∧ txSize > 0 then
    let t := [Syscall.send c.clientSocket (wrapSize txSize)]
    let c1 := { c with bytesSent := env.sendRet }
    if c1.bytesSent = -1 then
      if env.sendErrno ≠ .EAGAIN ∧ env.sendErrno ≠ .EWOULDBLOCK then
        let d := TCPClient.handleClientDisconnection { c1 with errorMessage := "Send failed." }
        ⟨false, d.st, t ++ d.calls⟩
      else
        TCPClient.updateRecv c1 env rxBuffer rxSize t
    else
      TCPClient.updateRecv c1 env rxBuffer rxSize t
  else
    TCPClient.updateRecv c env rxBuffer rxSize []

/-! ## Vocabulary of the statements -/

/-- Whether `e` is an `accept` call. -/
def Event.isAccept (e : Event) : Bool :=
  match e.call with
  | .accept _ => true
  | _ => false

/-- Whether `e` is a `send` call. -/
def Event.isSend (e : Event) : Bool :=
  match e.call with
  | .send _ _ => true
  | _ => false

/-! ## Concrete states used in the examples -/

/-- A freshly constructed server whose two capacities were set to 5. -/
def srv5 : TCPServer := setTxBufferSize (setRxBufferSize (TCPServer.new 0) 5) 5

/-- A listening server holding a peer: listener descriptor 3, peer descriptor 4. -/
def srvConnected : TCPServer :=
  { TCPServer.new 8080 with _ip := "127.0.0.1", _serverSocket := 3, _clientSocket := 4 }

/-- Outcomes in which every system call succeeds: descriptors 3 (`socket`) and
4 (`accept`), the peer writable without hang-up, 5 bytes sent, 5 bytes
received, 1 byte peeked, 5 bytes pending. -/
def envOk : Env :=
  { socketRet := 3, setsockoptRet := 0, fcntlGetflRet := 2, fcntlSetflRet := 0,
    inetPtonRet := 1, bindRet := 0, listenRet := 0, acceptRet := 4, acceptErrno := .other 0,
    pollRet := 1, reventsPOLLHUP := false, reventsPOLLOUT := true,
    sendRet := 5, sendErrno := .other 0, recvRet := 5, recvErrno := .other 0,
    peekRet := 1, peekErrno := .other 0, ioctlRet := 0, ioctlBytes := 5 }

/-- A listening server with no peer: listener descriptor 3. -/
def srvListening : TCPServer :=
  { TCPServer.new 8080 with _ip := "127.0.0.1", _serverSocket := 3 }

/-- Outcomes in which `accept` finds no pending connection (`EWOULDBLOCK`). -/
def envNoPending : Env := { envOk with acceptRet := -1, acceptErrno := .EWOULDBLOCK }

/-- A client whose socket is descriptor 3. -/
def cliConnected : TCPClient :=
  { bytesRead := 0, bytesSent := 0, clientSocket := 3, _port := 8080, _ip := "127.0.0.1",
    errorMessage := "" }

/-- Outcomes in which `accept` fails with an errno that is neither
`EWOULDBLOCK` nor `EAGAIN` (24, too many open files). -/
def envAcceptFails : Env := { envOk with acceptRet := -1, acceptErrno := .other 24 }

/-- A listening server with no peer and `hello` staged in the TX buffer. -/
def srvStaged : TCPServer := pushBackTxBuffer srvListening ['h', 'e', 'l', 'l', 'o']

/-- A server whose listener is descriptor 0 (what `socket` returns when
descriptor 0 is free) and whose peer is descriptor 4. -/
def srvListenerZero : TCPServer := { srvConnected with _serverSocket := 0 }

theorem wrapInt64_of_small (z : Int) (h0 : -(2 ^ 63) ≤ z) (h1 : z < 2 ^ 63) : wrapInt64 z = z := by
  unfold wrapInt64
  rw [Int.emod_eq_of_lt (by omega) (by omega)]
  omega

theorem wrapInt32_of_small (z : Int) (h0 : -(2 ^ 31) ≤ z) (h1 : z < 2 ^ 31) : wrapInt32 z = z := by
  unfold wrapInt32
  rw [Int.emod_eq_of_lt (by omega) (by omega)]
  omega

theorem wrapSize_of_small (z : Int) (h0 : 0 ≤ z) (h1 : z < 2 ^ 64) : wrapSize z = z.toNat := by
  unfold wrapSize
  rw [Int.emod_eq_of_lt h0 h1]

/-! ## Lemmas on the staging buffers -/

theorem removeFrontRxBuffer_eq (num : Nat) (s : TCPServer) :
    removeFrontRxBuffer s num = { s with _rxBuffer := s._rxBuffer.drop num } := by
  induction num generalizing s with
  | zero => simp [removeFrontRxBuffer]
  | succ k ih =>
    cases hb : s._rxBuffer with
    | nil => cases s; simp_all [removeFrontRxBuffer]
    | cons c rest =>
      unfold removeFrontRxBuffer
      simp only [hb]
      rw [ih]
      simp

theorem popFrontRxBufferLoop_eq (size : Nat) (s : TCPServer) (data : List Char) :
    popFrontRxBufferLoop s data size
      = (data ++ s._rxBuffer.take size, { s with _rxBuffer := s._rxBuffer.drop size }) := by
  induction size generalizing s data with
  | zero => simp [popFrontRxBufferLoop]
  | succ k ih =>
    cases hb : s._rxBuffer with
    | nil => cases s; simp_all [popFrontRxBufferLoop]
    | cons c rest =>
      unfold popFrontRxBufferLoop
      simp only [hb]
      rw [ih]
      simp

/-- The amount `pushBackRxBuffer` evicts when no conversion wraps. -/
theorem emptySize_of_small (len size cap : Nat) (hsum : len + size < 2 ^ 63) (hcap : cap < 2 ^ 63) :
    wrapInt64 (wrapInt64 (wrapSize ((len : Int) + size)) - wrapInt64 cap)
      = (len : Int) + size - cap := by
  have h1 : wrapSize ((len : Int) + size) = len + size := by
    rw [wrapSize_of_small _ (by omega) (by omega)]
    omega
  rw [h1, wrapInt64_of_small (cap : Int) (by omega) (by omega)]
  rw [wrapInt64_of_small ((len + size : Nat) : Int) (by omega) (by omega)]
  rw [wrapInt64_of_small _ (by omega) (by omega)]
  omega

theorem pushBackRxBuffer_of_small (s : TCPServer) (data : List Char)
    (hsum : s._rxBuffer.length + data.length < 2 ^ 63) (hcap : s._rxBufferSize < 2 ^ 63) :
    pushBackRxBuffer s data
      = { s with _rxBuffer :=
            s._rxBuffer.drop (s._rxBuffer.length + data.length - s._rxBufferSize) ++ data } := by
  unfold pushBackRxBuffer
  simp only []
  have he := emptySize_of_small s._rxBuffer.length data.length s._rxBufferSize hsum hcap
  push_cast at he ⊢
  rw [he]
  by_cases hpos : (s._rxBuffer.length : Int) + data.length - s._rxBufferSize > 0
  · rw [if_pos hpos, removeFrontRxBuffer_eq]
    rw [wrapSize_of_small _ (by omega) (by omega)]
    have : ((s._rxBuffer.length : Int) + data.length - s._rxBufferSize).toNat
        = s._rxBuffer.length + data.length - s._rxBufferSize := by omega
    rw [this]
  · rw [if_neg hpos]
    have : s._rxBuffer.length + data.length - s._rxBufferSize = 0 := by omega
    rw [this]
    simp

/-- C1 (evaluation at the failing input): with both capacities 5, one push of
the 8 bytes `ABCDEFGH` into the empty RX buffer, resp. TX buffer, leaves 8
bytes in it, more than the capacity. -/
theorem C1_oversize_push_exceeds_capacity :
    srv5._rxBuffer = [] ∧ srv5._rxBufferSize = 5 ∧ srv5._txBuffer = [] ∧ srv5._txBufferSize = 5
    ∧ (pushBackRxBuffer srv5 ['A', 'B', 'C', 'D', 'E', 'F', 'G', 'H'])._rxBuffer.length = 8
    ∧ (pushBackTxBuffer srv5 ['A', 'B', 'C', 'D', 'E', 'F', 'G', 'H'])._txBuffer.length = 8 := by
  decide

/-- C2 (evaluation at the failing input): with capacity 5, pushing `AB` and
then `CDEFGHIJ` into the empty RX buffer (10 bytes pushed, more than 5) leaves
`CDEFGHIJ`, which is not `FGHIJ`, the last 5 bytes pushed. -/
theorem C2_oversize_push_keeps_more_than_newest :
    (pushAllRx srv5 [['A', 'B'], ['C', 'D', 'E', 'F', 'G', 'H', 'I', 'J']])._rxBuffer
        = ['C', 'D', 'E', 'F', 'G', 'H', 'I', 'J']
    ∧ (pushAllRx srv5 [['A', 'B'], ['C', 'D', 'E', 'F', 'G', 'H', 'I', 'J']])._rxBuffer
        ≠ ['F', 'G', 'H', 'I', 'J'] := by
  decide

/-- C3: when no size reaches `2 ^ 63` (buffer plus data, and the capacity),
`pushBackRxBuffer` leaves the buffer with its first
`min |b| (|b| + |d| - C)` bytes removed (truncated subtraction) followed by
all of `d`; a push longer than the capacity leaves exactly `d`; and with
capacity 5, pushing `ABC` then `DEFGH` into the empty buffer leaves `DEFGH`. -/
theorem C3_pushBackRxBuffer_content (s : TCPServer) (d : List Char)
    (hsum : s._rxBuffer.length + d.length < 2 ^ 63) (hcap : s._rxBufferSize < 2 ^ 63) :
    pushBackRxBuffer s d
        = { s with _rxBuffer :=
              (s._rxBuffer.drop (min s._rxBuffer.length
                (s._rxBuffer.length + d.length - s._rxBufferSize))) ++ d }
    ∧ (s._rxBufferSize < d.length → (pushBackRxBuffer s d)._rxBuffer = d)
    ∧ (pushAllRx srv5 [['A', 'B', 'C'], ['D', 'E', 'F', 'G', 'H']])._rxBuffer
        = ['D', 'E', 'F', 'G', 'H'] := by
  have hpush := pushBackRxBuffer_of_small s d hsum hcap
  refine ⟨?_, ?_, by decide⟩
  · rw [hpush]
    rcases Nat.le_total s._rxBuffer.length (s._rxBuffer.length + d.length - s._rxBufferSize)
      with hle | hle
    · rw [Nat.min_eq_left hle, List.drop_of_length_le hle, List.drop_of_length_le (le_refl _)]
    · rw [Nat.min_eq_right hle]
  · intro hlt
    rw [hpush]
    have hle : s._rxBuffer.length ≤ s._rxBuffer.length + d.length - s._rxBufferSize := by omega
    simp [List.drop_of_length_le hle]

/-- C3, at a concrete input: capacity 5, buffer `ABC`, data `DEFGH`. -/
theorem C3_pushBackRxBuffer_content_witness :
    (pushBackRxBuffer srv5 ['A', 'B', 'C'])._rxBuffer.length + ['D', 'E', 'F', 'G', 'H'].length
        < 2 ^ 63
    ∧ (pushBackRxBuffer srv5 ['A', 'B', 'C'])._rxBufferSize < 2 ^ 63
    ∧ pushBackRxBuffer (pushBackRxBuffer srv5 ['A', 'B', 'C']) ['D', 'E', 'F', 'G', 'H']
        = { (pushBackRxBuffer srv5 ['A', 'B', 'C']) with
              _rxBuffer := ['D', 'E', 'F', 'G', 'H'] } :=
  ⟨by decide, by decide,
    (C3_pushBackRxBuffer_content (pushBackRxBuffer srv5 ['A', 'B', 'C'])
      ['D', 'E', 'F', 'G', 'H'] (by decide) (by decide)).1.trans (by decide)⟩

/-- C4: `popFrontRxBuffer n` returns the first `min n |b|` bytes of the buffer
`b`; followed by `popFrontRxBuffer (|b| - min n |b|)` the two returned strings
concatenate to what `popAllRxBuffer` returns on `b`, and both ways end in the
same object, whose RX buffer is empty. -/
theorem C4_popFront_twice_eq_popAll (s : TCPServer) (n : Nat) :
    (popFrontRxBuffer s n).1 = s._rxBuffer.take (min n s._rxBuffer.length)
    ∧ (popFrontRxBuffer s n).1
        ++ (popFrontRxBuffer (popFrontRxBuffer s n).2
              (s._rxBuffer.length - min n s._rxBuffer.length)).1
        = (popAllRxBuffer s).1
    ∧ (popFrontRxBuffer (popFrontRxBuffer s n).2
          (s._rxBuffer.length - min n s._rxBuffer.length)).2
        = (popAllRxBuffer s).2
    ∧ (popAllRxBuffer s).2._rxBuffer = [] := by
  have hlen : (s._rxBuffer.drop n).length ≤ s._rxBuffer.length - min n s._rxBuffer.length := by
    rw [List.length_drop]
    omega
  refine ⟨?_, ?_, ?_, rfl⟩
  · simp only [popFrontRxBuffer, popFrontRxBufferLoop_eq, List.nil_append]
    rcases Nat.le_total n s._rxBuffer.length with hle | hle
    · rw [Nat.min_eq_left hle]
    · rw [Nat.min_eq_right hle, List.take_of_length_le hle, List.take_of_length_le (le_refl _)]
  · simp only [popFrontRxBuffer, popFrontRxBufferLoop_eq, popAllRxBuffer, List.nil_append]
    rw [List.take_of_length_le hlen, List.take_append_drop]
  · simp only [popFrontRxBuffer, popFrontRxBufferLoop_eq, popAllRxBuffer]
    rw [List.drop_of_length_le hlen]

/-! ## The claims on the connection life cycle -/

/-- C5: `read` with `rxSize = 0` returns -1 and issues no system call (so no
receive on the socket); the listener descriptor, the peer descriptor and both
staging buffers are as before, only `errorMessage` is set. -/
theorem C5_read_zero_size_rejected (s : TCPServer) (env : Env) :
    (read s env 0).ret = -1
    ∧ (read s env 0).calls = []
    ∧ (read s env 0).st = { s with errorMessage := "TCPServer error: rxSize is zero value." }
    ∧ (read s env 0).st._serverSocket = s._serverSocket
    ∧ (read s env 0).st._clientSocket = s._clientSocket
    ∧ (read s env 0).st._rxBuffer = s._rxBuffer
    ∧ (read s env 0).st._txBuffer = s._txBuffer := by
  simp [read]

/-- C6: when the peer descriptor is absent (-1), whatever the listener
descriptor, `available` returns 0 and `isClientConnected` returns false; both
leave the object (descriptors and `errorMessage` included) as it was and
issue no system call. -/
theorem C6_no_peer_reports_nothing (s : TCPServer) (env : Env) (h : s._clientSocket = -1) :
    (available s env).ret = 0
    ∧ (available s env).st = s
    ∧ (available s env).calls = []
    ∧ (isClientConnected s env).ret = false
    ∧ (isClientConnected s env).st = s
    ∧ (isClientConnected s env).calls = [] := by
  simp [available, isClientConnected, h]

/-- C6, at a concrete input: the freshly constructed server. -/
theorem C6_no_peer_reports_nothing_witness :
    (TCPServer.new 8080)._clientSocket = -1
    ∧ (available (TCPServer.new 8080) envOk).ret = 0
    ∧ (isClientConnected (TCPServer.new 8080) envOk).ret = false :=
  have h := C6_no_peer_reports_nothing (TCPServer.new 8080) envOk (by decide)
  ⟨by decide, h.1, h.2.2.2.1⟩

/-- C7: with a peer held, when the peek receive of `isClientConnected` returns
0 bytes, `isClientConnected` returns false, the peer descriptor becomes absent
(-1), the listener descriptor is unchanged, and a following `available`
returns 0 whatever the outcomes `env2` of its system calls would be. -/
theorem C7_zero_peek_releases_peer (s : TCPServer) (env env2 : Env)
    (hheld : s._clientSocket ≠ -1) (hpeek : env.peekRet = 0) :
    (isClientConnected s env).ret = false
    ∧ (isClientConnected s env).st._clientSocket = -1
    ∧ (isClientConnected s env).st._serverSocket = s._serverSocket
    ∧ (available (isClientConnected s env).st env2).ret = 0 := by
  simp [isClientConnected, available, _handleClientDisconnection, hheld, hpeek]

/-- C7, at a concrete input: listener 3, peer 4, the peek returns 0. -/
theorem C7_zero_peek_releases_peer_witness :
    srvConnected._clientSocket ≠ -1
    ∧ ({ envOk with peekRet := 0 } : Env).peekRet = 0
    ∧ (isClientConnected srvConnected { envOk with peekRet := 0 }).st._clientSocket = -1
    ∧ (available (isClientConnected srvConnected { envOk with peekRet := 0 }).st envOk).ret = 0 :=
  have h := C7_zero_peek_releases_peer srvConnected { envOk with peekRet := 0 } envOk
    (by decide) rfl
  ⟨by decide, rfl, h.2.1, h.2.2.2⟩

/-- C8: `serverClose` is idempotent: the object after two calls equals the
object after one, which is the initial object with both descriptors absent
(buffers and `errorMessage` as before); neither call changes `errorMessage`. -/
theorem C8_serverClose_idempotent (s : TCPServer) :
    (serverClose (serverClose s).st).st = (serverClose s).st
    ∧ (serverClose s).st = { s with _serverSocket := -1, _clientSocket := -1 }
    ∧ (serverClose s).st.errorMessage = s.errorMessage
    ∧ (serverClose (serverClose s).st).st.errorMessage = s.errorMessage := by
  simp [serverClose, _handleServerDisconnection, _handleClientDisconnection]

/-- C9: with a peer held that polls as writable without hang-up, and
`txSize < 2 ^ 31`, when `send` accepts `k` bytes with `0 ≤ k < txSize`,
`write` returns false and leaves the peer descriptor and the listener
descriptor unchanged. -/
theorem C9_short_write_fails_open (s : TCPServer) (env : Env) (txSize : Nat)
    (hheld : s._clientSocket ≠ -1) (hpoll : env.pollRet ≠ -1)
    (hhup : env.reventsPOLLHUP = false) (hout : env.reventsPOLLOUT = true)
    (hsize : txSize < 2 ^ 31) (hk0 : 0 ≤ env.sendRet) (hk : env.sendRet < txSize) :
    (write s env txSize).ret = false
    ∧ (write s env txSize).st._clientSocket = s._clientSocket
    ∧ (write s env txSize).st._serverSocket = s._serverSocket := by
  have hw : wrapInt32 env.sendRet = env.sendRet :=
    wrapInt32_of_small _ (by omega) (by omega)
  have ht : wrapInt32 (txSize : Int) = txSize := wrapInt32_of_small _ (by omega) (by omega)
  have hne : env.sendRet ≠ -1 := by omega
  simp [write, hheld, hpoll, hhup, hout, hw, ht, hne, hk]

/-- C9, at a concrete input: peer 4 writable, 5 of 16 bytes sent. -/
theorem C9_short_write_fails_open_witness :
    srvConnected._clientSocket ≠ -1 ∧ envOk.pollRet ≠ -1
    ∧ envOk.reventsPOLLHUP = false ∧ envOk.reventsPOLLOUT = true
    ∧ 16 < 2 ^ 31 ∧ 0 ≤ envOk.sendRet ∧ envOk.sendRet < (16 : Nat)
    ∧ (write srvConnected envOk 16).ret = false
    ∧ (write srvConnected envOk 16).st._clientSocket = 4 :=
  have h := C9_short_write_fails_open srvConnected envOk 16
    (by decide) (by decide) rfl rfl (by decide) (by decide) (by decide)
  ⟨by decide, by decide, rfl, rfl, by decide, by decide, by decide, h.1, h.2.1⟩

/-- C10 (counterexample): on a server holding peer descriptor 4, when socket
creation fails `startByIP` returns false and sets `errorMessage`, the listener
descriptor is absent, but the peer descriptor is still 4, not absent. -/
theorem C10_socket_failure_keeps_peer :
    srvConnected._clientSocket = 4
    ∧ ({ envOk with socketRet := -1 } : Env).socketRet = -1
    ∧ (startByIP srvConnected { envOk with socketRet := -1 } 8080 "127.0.0.1").ret = false
    ∧ (startByIP srvConnected { envOk with socketRet := -1 } 8080 "127.0.0.1").st.errorMessage
        = "TCPServer error: Error creating server socket: "
    ∧ (startByIP srvConnected { envOk with socketRet := -1 } 8080 "127.0.0.1").st._serverSocket
        = -1
    ∧ (startByIP srvConnected { envOk with socketRet := -1 } 8080 "127.0.0.1").st._clientSocket
        = 4
    ∧ ¬ (startByIP srvConnected { envOk with socketRet := -1 } 8080 "127.0.0.1").st._clientSocket
        = -1 := by
  decide

/-- C10 (amended): for every prior state, when one of the steps of `startByIP`
fails (socket creation, setting the socket options, getting or setting the
non-blocking flag, address conversion, bind, listen), `startByIP` returns
false, `errorMessage` is the message of the first failing step, and the
listener descriptor is absent; the peer descriptor is absent when the failing
step comes after socket creation, and is the one of the prior state when socket
creation itself fails. -/
theorem C10_startByIP_failure (s : TCPServer) (env : Env) (port : Nat) (ip : String)
    (hfail : env.socketRet = -1 ∨ env.setsockoptRet = -1 ∨ env.fcntlGetflRet = -1
      ∨ env.fcntlSetflRet = -1 ∨ env.inetPtonRet ≤ 0 ∨ env.bindRet = -1 ∨ env.listenRet = -1) :
    (startByIP s env port ip).ret = false
    ∧ (startByIP s env port ip).st._serverSocket = -1
    ∧ (env.socketRet ≠ -1 → (startByIP s env port ip).st._clientSocket = -1)
    ∧ (env.socketRet = -1 → (startByIP s env port ip).st._clientSocket = s._clientSocket)
    ∧ (startByIP s env port ip).st.errorMessage =
        (if env.socketRet = -1 then "TCPServer error: Error creating server socket: "
         else if env.setsockoptRet = -1 then "TCPServer error: Error setting socket options."
         else if env.fcntlGetflRet = -1 then
           "TCPServer error: Error getting socket flags for setting socket to non-blockings."
         else if env.fcntlSetflRet = -1 then
           "TCPServer error: Error setting socket to non-blocking."
         else if env.inetPtonRet ≤ 0 then
           "TCPServer error: Invalid IP address/ Address not supported"
         else if env.bindRet = -1 then "TCPServer error: Bind failed."
         else "TCPServer error: Listen failed.") := by
  simp only [startByIP, startFail, _handleServerDisconnection, _handleClientDisconnection]
  split_ifs <;> simp_all

/-- C10 (amended), at a concrete input: `bind` fails on a server holding
peer 4. -/
theorem C10_startByIP_failure_witness :
    ({ envOk with bindRet := -1 } : Env).bindRet = -1
    ∧ (startByIP srvConnected { envOk with bindRet := -1 } 8080 "127.0.0.1").ret = false
    ∧ (startByIP srvConnected { envOk with bindRet := -1 } 8080 "127.0.0.1").st._serverSocket
        = -1
    ∧ (startByIP srvConnected { envOk with bindRet := -1 } 8080 "127.0.0.1").st._clientSocket
        = -1 :=
  have h := C10_startByIP_failure srvConnected { envOk with bindRet := -1 } 8080 "127.0.0.1"
    (Or.inr (Or.inr (Or.inr (Or.inr (Or.inr (Or.inl rfl))))))
  ⟨rfl, h.1, h.2.1, h.2.2.1 (by decide)⟩

/-! ## Lemmas on the accept block -/

theorem acceptPeer_errorMessage (s : TCPServer) (env : Env)
    (hacc : ¬ (env.acceptRet = -1 ∧ env.acceptErrno ≠ .EWOULDBLOCK ∧ env.acceptErrno ≠ .EAGAIN))
    (hret : (acceptPeer s env).ret ≠ some false) :
    (acceptPeer s env).st.errorMessage = s.errorMessage := by
  simp only [acceptPeer, _clientConfig, _handleClientDisconnection] at hret ⊢
  split_ifs at hret ⊢ <;> simp_all

/-! ## The claims on error reporting and on the peer -/

/-- C11 (counterexample): on a listening server with no peer, when `accept`
fails with errno 24, `write` returns true although `errorMessage` changed from
the empty string to the accept message; `clientConnect` does the same. -/
theorem C11_true_with_error_recorded :
    srvListening.errorMessage = ""
    ∧ (write srvListening envAcceptFails 16).ret = true
    ∧ (write srvListening envAcceptFails 16).st.errorMessage
        = "TCPServer error: Accept client failed"
    ∧ (write srvListening envAcceptFails 16).st.errorMessage ≠ srvListening.errorMessage
    ∧ (clientConnect srvListening envAcceptFails).ret = true
    ∧ (clientConnect srvListening envAcceptFails).st.errorMessage ≠ srvListening.errorMessage := by
  decide

/-- C11 (amended): a call of `write(txBuffer, txSize)` that returns true leaves
`errorMessage` as it was, provided the accept it attempts (peer absent) does
not fail with an errno other than `EWOULDBLOCK`/`EAGAIN`; a call of
`clientConnect()` that returns true leaves `errorMessage` as it was under the
same proviso and provided the peek of `isClientConnected` (peer held) does not
report a disconnection (0 bytes, or a failure with `ECONNRESET`/`EPIPE`). -/
theorem C11_success_keeps_error_state (s : TCPServer) (env : Env) (txSize : Nat)
    (hacc : s._clientSocket = -1 →
      ¬ (env.acceptRet = -1 ∧ env.acceptErrno ≠ .EWOULDBLOCK ∧ env.acceptErrno ≠ .EAGAIN)) :
    ((write s env txSize).ret = true → (write s env txSize).st.errorMessage = s.errorMessage)
    ∧ ((s._clientSocket ≠ -1 →
          ¬ (env.peekRet = 0
              ∨ (env.peekRet < 0 ∧ (env.peekErrno = .ECONNRESET ∨ env.peekErrno = .EPIPE)))) →
        (clientConnect s env).ret = true →
        (clientConnect s env).st.errorMessage = s.errorMessage) := by
  constructor
  · simp only [write, acceptPeer, _clientConfig, _handleClientDisconnection]
    split_ifs <;> simp_all
  · intro hpeek
    by_cases hc : s._clientSocket = -1
    · have hic : isClientConnected s env = ⟨false, s, []⟩ := by simp [isClientConnected, hc]
      have hmsg := acceptPeer_errorMessage s env (hacc hc)
      simp only [clientConnect, hic]
      cases hr : (acceptPeer s env).ret with
      | none => intro _; exact hmsg (by simp [hr])
      | some b =>
        cases b with
        | false => simp
        | true => intro _; exact hmsg (by simp [hr])
    · have hp := hpeek hc
      have hic : (isClientConnected s env).ret = true
          ∧ (isClientConnected s env).st = s := by
        simp only [isClientConnected, _handleClientDisconnection]
        split_ifs <;> simp_all
      simp [clientConnect, hic.1, hic.2]

/-- C11 (amended), at a concrete input: no peer, `accept` finds no pending
connection; both calls return true and `errorMessage` stays empty. -/
theorem C11_success_keeps_error_state_witness :
    (write srvListening envNoPending 16).ret = true
    ∧ (write srvListening envNoPending 16).st.errorMessage = ""
    ∧ (clientConnect srvListening envNoPending).ret = true
    ∧ (clientConnect srvListening envNoPending).st.errorMessage = "" :=
  have h := C11_success_keeps_error_state srvListening envNoPending 16 (by decide)
  ⟨by decide, h.1 (by decide), by decide, h.2 (by decide) (by decide)⟩

/-- C12 (evaluation at the failing input): with peer 4 held and `rxSize = 16`,
`read` returns -1 when `recv` fails with `EAGAIN` and also -1 when it fails
with `ECONNRESET`: the two returned values are equal. -/
theorem C12_transient_and_hard_failure_same_value :
    (read srvConnected { envOk with recvRet := -1, recvErrno := .EAGAIN } 16).ret = -1
    ∧ (read srvConnected { envOk with recvRet := -1, recvErrno := .EWOULDBLOCK } 16).ret = -1
    ∧ (read srvConnected { envOk with recvRet := -1, recvErrno := .ECONNRESET } 16).ret = -1
    ∧ (read srvConnected { envOk with recvRet := -1, recvErrno := .EAGAIN } 16).ret
        = (read srvConnected { envOk with recvRet := -1, recvErrno := .ECONNRESET } 16).ret := by
  decide

/-- C13 (evaluation at the failing input): on a listening server with no peer,
when the non-blocking `accept` finds no pending connection, or fails,
`clientConnect` returns true although the peer descriptor is still absent. -/
theorem C13_clientConnect_true_without_peer :
    (clientConnect srvListening envNoPending).ret = true
    ∧ (clientConnect srvListening envNoPending).st._clientSocket = -1
    ∧ (isClientConnected (clientConnect srvListening envNoPending).st envOk).ret = false
    ∧ (clientConnect srvListening envAcceptFails).ret = true
    ∧ (clientConnect srvListening envAcceptFails).st._clientSocket = -1 := by
  decide

/-- C14 (evaluation at the failing input): with `hello` staged and no peer
held, when `accept` finds no pending connection the flush form of `write`
issues no `send`, returns true, and leaves the TX buffer empty; the same
happens with peer 4 held but not write-ready. -/
theorem C14_flush_discards_unsent_bytes :
    srvStaged._txBuffer = ['h', 'e', 'l', 'l', 'o']
    ∧ (writeStaged srvStaged envNoPending).ret = true
    ∧ (writeStaged srvStaged envNoPending).calls.any Event.isSend = false
    ∧ (writeStaged srvStaged envNoPending).st._txBuffer = []
    ∧ (writeStaged { srvStaged with _clientSocket := 4 }
          { envOk with reventsPOLLOUT := false }).ret = true
    ∧ (writeStaged { srvStaged with _clientSocket := 4 }
          { envOk with reventsPOLLOUT := false }).calls.any Event.isSend = false
    ∧ (writeStaged { srvStaged with _clientSocket := 4 }
          { envOk with reventsPOLLOUT := false }).st._txBuffer = [] := by
  decide

/-- C15 (counterexample): with peer 4 held and no negative result from
`recv`, `read` changes `errorMessage`: for `rxSize = 2 ^ 63` and a zero-length
result (`(int64_t)rxSize` is negative, so `0 > (int64_t)rxSize`), and for
`rxSize = 16` and a result of 20 bytes; both calls return 0. -/
theorem C15_error_state_set_without_failure :
    srvConnected._clientSocket ≠ -1 ∧ srvConnected.errorMessage = ""
    ∧ (read srvConnected { envOk with recvRet := 0 } (2 ^ 63)).ret = 0
    ∧ (read srvConnected { envOk with recvRet := 0 } (2 ^ 63)).st.errorMessage
        = "TCPServer error: Error receiving message. bytesRead is more than rxSize"
    ∧ (read srvConnected { envOk with recvRet := 0 } (2 ^ 63)).st.errorMessage
        ≠ srvConnected.errorMessage
    ∧ (read srvConnected { envOk with recvRet := 20 } 16).ret = 0
    ∧ (read srvConnected { envOk with recvRet := 20 } 16).st.errorMessage
        ≠ srvConnected.errorMessage := by
  decide

/-- C15 (amended): for `read` with `0 < rxSize < 2 ^ 63`, a peer held, and a
result of `recv` that is -1 or a byte count below `2 ^ 31`: the peer
descriptor is absent afterwards exactly when `recv` returned a negative result
with an errno other than `EWOULDBLOCK`/`EAGAIN`; in every other case the peer
descriptor is unchanged, and `errorMessage` is unchanged when the result does
not exceed `rxSize`; a result exceeding `rxSize` sets `errorMessage` and makes
`read` return 0; a zero-length result makes `read` return 0; the listener
descriptor never changes. -/
theorem C15_read_teardown_iff_hard_failure (s : TCPServer) (env : Env) (rxSize : Nat)
    (hpos : 0 < rxSize) (hbig : rxSize < 2 ^ 63) (hheld : s._clientSocket ≠ -1)
    (hrecv : env.recvRet = -1 ∨ (0 ≤ env.recvRet ∧ env.recvRet < 2 ^ 31)) :
    ((read s env rxSize).st._clientSocket = -1 ↔
        (env.recvRet < 0 ∧ env.recvErrno ≠ .EWOULDBLOCK ∧ env.recvErrno ≠ .EAGAIN))
    ∧ (¬ (env.recvRet < 0 ∧ env.recvErrno ≠ .EWOULDBLOCK ∧ env.recvErrno ≠ .EAGAIN) →
        (read s env rxSize).st._clientSocket = s._clientSocket)
    ∧ (¬ (env.recvRet < 0 ∧ env.recvErrno ≠ .EWOULDBLOCK ∧ env.recvErrno ≠ .EAGAIN) →
        env.recvRet ≤ rxSize → (read s env rxSize).st.errorMessage = s.errorMessage)
    ∧ (env.recvRet > rxSize →
        (read s env rxSize).ret = 0
        ∧ (read s env rxSize).st.errorMessage
            = "TCPServer error: Error receiving message. bytesRead is more than rxSize")
    ∧ (env.recvRet = 0 → (read s env rxSize).ret = 0)
    ∧ (read s env rxSize).st._serverSocket = s._serverSocket := by
  have hne : rxSize ≠ 0 := by omega
  have h64 : wrapInt64 (rxSize : Int) = rxSize := wrapInt64_of_small _ (by omega) (by omega)
  rcases hrecv with hfail | ⟨h0, h31⟩
  · have h32 : wrapInt32 env.recvRet = -1 := by rw [hfail]; decide
    have hle : (-1 : Int) ≤ 0 := by decide
    have hn0 : ¬ ((-1 : Int) = 0) := by decide
    have hngt : ¬ ((-1 : Int) > rxSize) := by omega
    by_cases hhard : env.recvErrno ≠ .EWOULDBLOCK ∧ env.recvErrno ≠ .EAGAIN
    · simp only [read, _handleClientDisconnection, if_neg hne, h32, if_pos hle, if_neg hn0,
        if_pos hhard]
      simp [hfail, hhard, hngt]
    · simp only [read, if_neg hne, h32, if_pos hle, if_neg hn0, if_neg hhard]
      simp [hfail, hheld, hhard, hngt]
  · have h32 : wrapInt32 env.recvRet = env.recvRet :=
      wrapInt32_of_small _ (by omega) (by omega)
    have hn1 : env.recvRet ≠ -1 := by omega
    have hnlt : ¬ env.recvRet < 0 := by omega
    by_cases hgt : env.recvRet > (rxSize : Int)
    · have hn00 : env.recvRet ≠ 0 := by omega
      have hnle : ¬ env.recvRet ≤ (rxSize : Int) := by omega
      have hnle0 : ¬ env.recvRet ≤ 0 := by omega
      simp only [read, readCheckSize, if_neg hne, h32, h64, if_neg hnle0, if_pos hgt]
      simp [hnlt, hheld, hgt, hn00, hnle]
    · simp only [read, readCheckSize, if_neg hne, h32, h64, if_neg hn1, if_neg hgt]
      split_ifs <;> simp_all

/-- C15 (amended), at a concrete input: peer 4 held, 16 bytes requested,
`recv` returns 0. -/
theorem C15_read_teardown_iff_hard_failure_witness :
    (0 : Nat) < 16 ∧ srvConnected._clientSocket ≠ -1
    ∧ (read srvConnected { envOk with recvRet := 0 } 16).ret = 0
    ∧ (read srvConnected { envOk with recvRet := 0 } 16).st._clientSocket = 4
    ∧ (read srvConnected { envOk with recvRet := 0 } 16).st.errorMessage = "" :=
  have h := C15_read_teardown_iff_hard_failure srvConnected { envOk with recvRet := 0 } 16
    (by decide) (by decide) (by decide) (Or.inr (by decide))
  ⟨by decide, by decide, h.2.2.2.2.1 rfl, h.2.1 (by decide), h.2.2.1 (by decide) (by decide)⟩

/-- C16: `TCPClient::update` returns false exactly when a send was attempted
(`txBuffer` non-null, `txSize > 0`) and failed with an errno other than
`EAGAIN`/`EWOULDBLOCK`, or a receive was attempted (`rxBuffer` non-null,
`rxSize > 0`) and returned 0 bytes or failed with such an errno; when it
returns false the descriptor is absent and `isClientConnected` is false; when
it returns true the descriptor is unchanged. -/
theorem C16_update_false_iff_failure (c : TCPClient) (env : Env)
    (txBuffer : Option (List Char)) (txSize : Int)
    (rxBuffer : Option (List Char)) (rxSize : Int) :
    ((c.update env txBuffer txSize rxBuffer rxSize).ret = false ↔
        (txBuffer.isSome ∧ txSize > 0 ∧ env.sendRet = -1
            ∧ env.sendErrno ≠ .EAGAIN ∧ env.sendErrno ≠ .EWOULDBLOCK)
        ∨ (rxBuffer.isSome ∧ rxSize > 0
            ∧ (env.recvRet = 0
                ∨ (env.recvRet = -1
                    ∧ env.recvErrno ≠ .EAGAIN ∧ env.recvErrno ≠ .EWOULDBLOCK))))
    ∧ ((c.update env txBuffer txSize rxBuffer rxSize).ret = false →
        (c.update env txBuffer txSize rxBuffer rxSize).st.clientSocket = -1
        ∧ (c.update env txBuffer txSize rxBuffer rxSize).st.isClientConnected = false)
    ∧ ((c.update env txBuffer txSize rxBuffer rxSize).ret = true →
        (c.update env txBuffer txSize rxBuffer rxSize).st.clientSocket = c.clientSocket) := by
  simp only [TCPClient.update, TCPClient.updateRecv, TCPClient.handleClientDisconnection,
    TCPClient.isClientConnected]
  split_ifs <;> simp_all

/-- C17 (evaluation at the failing input): with listener descriptor 0 and peer
descriptor 4, `isListening` reports the listener live and neither descriptor
is the absent value, yet `available` issues no system call and returns 0
although 5 bytes are pending; with listener descriptor 3 it returns 5. -/
theorem C17_available_ignores_descriptor_zero :
    isListening srvListenerZero = true
    ∧ srvListenerZero._serverSocket ≠ -1 ∧ srvListenerZero._clientSocket ≠ -1
    ∧ envOk.ioctlBytes = 5
    ∧ (available srvListenerZero envOk).calls = []
    ∧ (available srvListenerZero envOk).ret = 0
    ∧ (available srvConnected envOk).ret = 5 := by
  decide

/-- C18: in every execution of `clientConnect()` and of
`write(txBuffer, txSize)`, from any state and for any outcomes of the system
calls, every `accept` is issued at a point where the peer descriptor is
absent (-1); and both do issue an `accept` when they start with the peer
absent. -/
theorem C18_accept_only_without_peer (s : TCPServer) (env : Env) (txSize : Nat) :
    (∀ e ∈ (clientConnect s env).calls, e.isAccept = true → e.peer = -1)
    ∧ (∀ e ∈ (write s env txSize).calls, e.isAccept = true → e.peer = -1)
    ∧ (s._clientSocket = -1 → (clientConnect s env).calls.any Event.isAccept = true)
    ∧ (s._clientSocket = -1 → (write s env txSize).calls.any Event.isAccept = true) := by
  have hacc : ∀ s1 : TCPServer, s1._clientSocket = -1 →
      (∀ e ∈ (acceptPeer s1 env).calls, e.isAccept = true → e.peer = -1)
      ∧ (acceptPeer s1 env).calls.any Event.isAccept = true := by
    intro s1 h1
    simp only [acceptPeer, _clientConfig, _handleClientDisconnection]
    split_ifs <;> simp [TCPServer.emit, Event.isAccept, h1]
  have hw : (∀ e ∈ (write s env txSize).calls, e.isAccept = true → e.peer = -1)
      ∧ (s._clientSocket = -1 → (write s env txSize).calls.any Event.isAccept = true) := by
    by_cases hc : s._clientSocket = -1
    · have h := hacc s hc
      simp only [write, if_pos hc]
      cases hr : (acceptPeer s env).ret <;> exact ⟨h.1, fun _ => h.2⟩
    · simp only [write, if_neg hc, _handleClientDisconnection]
      split_ifs <;> simp [TCPServer.emit, Event.isAccept, hc]
  have hcc : (∀ e ∈ (clientConnect s env).calls, e.isAccept = true → e.peer = -1)
      ∧ (s._clientSocket = -1 → (clientConnect s env).calls.any Event.isAccept = true) := by
    have hic : (∀ e ∈ (isClientConnected s env).calls, e.isAccept = false)
        ∧ ((isClientConnected s env).ret = false → (isClientConnected s env).st._clientSocket = -1)
        ∧ (s._clientSocket = -1 → (isClientConnected s env).ret = false) := by
      simp only [isClientConnected, _handleClientDisconnection]
      split_ifs <;> simp_all [TCPServer.emit, Event.isAccept]
    simp only [clientConnect]
    cases hret : (isClientConnected s env).ret with
    | true =>
      have hno : s._clientSocket ≠ -1 := fun h => by simpa [hret] using hic.2.2 h
      refine ⟨?_, fun h => absurd h hno⟩
      intro e he hacc2
      simp only [Bool.not_true] at he
      have := hic.1 e (by simpa using he)
      simp [this] at hacc2
    | false =>
      have h := hacc (isClientConnected s env).st (hic.2.1 hret)
      have hsplit : ∀ e ∈ (isClientConnected s env).calls ++ (acceptPeer
          (isClientConnected s env).st env).calls, e.isAccept = true → e.peer = -1 := by
        intro e he hacc2
        rcases List.mem_append.mp he with h1 | h2
        · have := hic.1 e h1
          simp [this] at hacc2
        · exact h.1 e h2 hacc2
      have hany : ((isClientConnected s env).calls ++ (acceptPeer
          (isClientConnected s env).st env).calls).any Event.isAccept = true := by
        rw [List.any_append, h.2]
        simp
      cases hr : (acceptPeer (isClientConnected s env).st env).ret <;>
        exact ⟨by simpa using hsplit, fun _ => by simpa using hany⟩
  exact ⟨hcc.1, hw.1, hcc.2, hw.2⟩

/-! ## The keep-the-newest policy -/

end TCPNetworkLinux
